import Mathlib

set_option linter.unusedVariables false

/-!
Verification of the conspiracy-board agent (Python sources under `agent/`)
against its natural-language specification.

The Python modules are shallowly embedded as executable Lean definitions:
  * `Graph`     models `agent/graph.py`  (`ConspiracyGraph` over Neo4j MERGE/SET
                semantics, with the availability guard of every method);
  * `Search`    models `agent/search.py` (Tavily wrapper, truncation and caps);
  * `Extractor` models `agent/extractor.py` (LLM extraction with JSON fallback);
  * `Senso`     models `agent/senso.py`  (knowledge-base query);
  * `Agent`     models `agent/agent.py`  (orchestration round: input assembly,
                image dedup, connection upsert loop, completion summary).

External services (Neo4j, Tavily, OpenAI, Senso, Reka) are represented by
explicit outcome parameters: a function that in Python performs a remote call
here takes the call's outcome (success payload / failure) as an argument, and
the Lean definition reproduces exactly the Python post-processing of that
outcome, including every `try/except` fallback path.
-/

namespace Graph

/-- A Neo4j `Entity` node. `MERGE (e:Entity {name: $name})` keys nodes by
`name`; `topic`/`round` are `Option` because `add_connection` merges bare
nodes carrying only a name (graph.py lines 100-101). -/
structure Entity where
  name : String
  topic : Option String
  round : Option Int
deriving DecidableEq

/-- A `CONNECTED_TO` relationship, keyed by the ordered pair of entity names
(graph.py lines 100-108). -/
structure Connection where
  from_entity : String
  to_entity : String
  relationship : String
  suspicion : Int
deriving DecidableEq

/-- The state held behind a live Neo4j driver: all `Entity` nodes and all
`CONNECTED_TO` relationships, in insertion order. -/
structure DriverState where
  entities : List Entity
  connections : List Connection
deriving DecidableEq

/-- The `ConspiracyGraph` object: `available` flag plus optional driver
(graph.py lines 23-45; the constructor leaves `driver = none` whenever the
service is unreachable). -/
structure ConspiracyGraph where
  available : Bool
  driver : Option DriverState
deriving DecidableEq

/-- `MERGE (e:Entity {name}) SET e.topic, e.round` on a driver state: update
every node matching the name, or create one node when none matches. -/
def DriverState.add_entity (st : DriverState) (name topic : String)
    (round_num : Int) : DriverState :=
  if st.entities.any (fun e => e.name == name) then
    { st with entities := st.entities.map (fun e =>
        if e.name == name then
          { e with topic := some topic, round := some round_num }
        else e) }
  else
    { st with entities :=
        st.entities ++ [{ name := name, topic := some topic, round := some round_num }] }

/-- `MERGE (a:Entity {name})` inside `add_connection`: creates a bare node
(only `name` set) when the name is absent, otherwise leaves entities as-is. -/
def DriverState.merge_entity_node (st : DriverState) (name : String) : DriverState :=
  if st.entities.any (fun e => e.name == name) then st
  else { st with entities := st.entities ++ [{ name := name, topic := none, round := none }] }

/-- `MERGE (a)-[r:CONNECTED_TO]->(b) SET r.relationship, r.suspicion`
(graph.py lines 98-108): merge both endpoint nodes, then update every edge
matching the ordered pair or create one when none matches. -/
def DriverState.add_connection (st : DriverState)
    (from_entity to_entity relationship : String) (suspicion : Int) : DriverState :=
  let st₁ := st.merge_entity_node from_entity
  let st₂ := st₁.merge_entity_node to_entity
  if st₂.connections.any (fun c => c.from_entity == from_entity && c.to_entity == to_entity) then
    { st₂ with connections := st₂.connections.map (fun c =>
        if c.from_entity == from_entity && c.to_entity == to_entity then
          { c with relationship := relationship, suspicion := suspicion }
        else c) }
  else
    { st₂ with connections := st₂.connections ++
        [{ from_entity := from_entity, to_entity := to_entity,
           relationship := relationship, suspicion := suspicion }] }

/-- `ConspiracyGraph.close` (graph.py lines 47-51): drop the driver; the
`available` flag is left untouched. -/
def ConspiracyGraph.close (g : ConspiracyGraph) : ConspiracyGraph :=
  { g with driver := none }

/-- `ConspiracyGraph.clear` (graph.py lines 53-58): guarded no-op when
unavailable, otherwise `MATCH (n) DETACH DELETE n`. -/
def ConspiracyGraph.clear (g : ConspiracyGraph) : ConspiracyGraph :=
  match g.available, g.driver with
  | true, some _ => { g with driver := some { entities := [], connections := [] } }
  | _, _ => g

/-- `ConspiracyGraph.add_entity` (graph.py lines 60-78). -/
def ConspiracyGraph.add_entity (g : ConspiracyGraph) (name topic : String)
    (round_num : Int) : ConspiracyGraph :=
  match g.available, g.driver with
  | true, some st => { g with driver := some (st.add_entity name topic round_num) }
  | _, _ => g

/-- `ConspiracyGraph.add_connection` (graph.py lines 80-108). -/
def ConspiracyGraph.add_connection (g : ConspiracyGraph)
    (from_entity to_entity relationship : String) (suspicion : Int) : ConspiracyGraph :=
  match g.available, g.driver with
  | true, some st =>
      { g with driver := some (st.add_connection from_entity to_entity relationship suspicion) }
  | _, _ => g

/-- `ConspiracyGraph.get_all_entities` (graph.py lines 110-116). -/
def ConspiracyGraph.get_all_entities (g : ConspiracyGraph) : List Entity :=
  match g.available, g.driver with
  | true, some st => st.entities
  | _, _ => []

/-- `ConspiracyGraph.get_connections` (graph.py lines 118-136): returns every
relationship with its endpoint names; the Python re-packaging into dicts with
keys from/to/relationship/suspicion is the identity on our records. -/
def ConspiracyGraph.get_connections (g : ConspiracyGraph) : List Connection :=
  match g.available, g.driver with
  | true, some st => st.connections
  | _, _ => []

/-- `ConspiracyGraph.get_entity_count` (graph.py lines 138-145). -/
def ConspiracyGraph.get_entity_count (g : ConspiracyGraph) : Int :=
  match g.available, g.driver with
  | true, some st => (st.entities.length : Int)
  | _, _ => 0

end Graph

/-- A search result as the agent passes it around: dict with keys
`title`, `url`, `content` (search.py lines 37-43, agent.py lines 74-78). -/
structure SearchResult where
  title : String
  url : String
  content : String
deriving DecidableEq

namespace Search

/-- A raw result object inside a Tavily response. -/
structure RawResult where
  title : String
  url : String
  content : String
deriving DecidableEq

/-- The payload of a successful Tavily response: `results` and `images`
lists (missing keys or a non-dict response are modelled by empty lists). -/
structure TavilyResponse where
  results : List RawResult
  images : List String
deriving DecidableEq

/-- `_truncate` (search.py lines 17-20). -/
def truncate (text : String) (max_len : Nat := 500) : String :=
  if text = "" then ""
  else if text.length > max_len then text.take max_len else text

/-- `search_topic` (search.py lines 23-47), with the remote call's outcome as
a parameter: `none` covers an unavailable client or a raised exception, and
yields the empty fallback; on success the results are truncated to 500
characters of content and the image list is capped at 3 URLs. -/
def search_topic (outcome : Option TavilyResponse) : List SearchResult × List String :=
  match outcome with
  | none => ([], [])
  | some resp =>
      (resp.results.map (fun r =>
          { title := r.title, url := r.url, content := truncate r.content 500 }),
       resp.images.take 3)

end Search

namespace Extractor

/-- A parsed JSON value, as produced by `json.loads`. -/
inductive JValue where
  | null : JValue
  | bool : Bool → JValue
  | num : Int → JValue
  | str : String → JValue
  | arr : List JValue → JValue
  | obj : List (String × JValue) → JValue

/-- Dictionary lookup on a parsed JSON object's fields. -/
def jlookup (fields : List (String × JValue)) (k : String) : Option JValue :=
  (fields.find? (fun p => p.1 == k)).map (fun p => p.2)

/-- The outcome of one chat-completion call as the extractor sees it:
a transport/API exception, a reply that is not valid JSON even after
code-fence stripping, or a successfully parsed JSON value. -/
inductive LLMOutcome where
  | transport_error : LLMOutcome
  | non_json_reply : LLMOutcome
  | reply_json : JValue → LLMOutcome

/-- The extractor's return value: the four fields of the dict built at
extractor.py lines 84-89 (values are passed through unvalidated, so each
field is an arbitrary JSON value). -/
structure ExtractResult where
  entities_a : JValue
  entities_b : JValue
  connections : JValue
  insight : JValue

/-- The static fallback dict (extractor.py lines 36-41). -/
def fallback_extraction : ExtractResult :=
  { entities_a := .arr [], entities_b := .arr [],
    connections := .arr [], insight := .str "No connections found yet..." }

/-- Python whitespace as recognised by `str.strip()` with no argument. -/
def is_py_space (c : Char) : Bool :=
  c = ' ' || c = '\t' || c = '\n' || c = '\r' || c = '\x0b' || c = '\x0c'

/-- `not raw_text.strip()` (extractor.py line 48): true iff every character
is whitespace (in particular for the empty string). -/
def is_blank (s : String) : Bool :=
  s.data.all is_py_space

/-- The text blob fed to the model (extractor.py lines 43-46): newline-join
of every result's `content`, truncated to 3000 characters when longer. -/
def raw_input_text (search_results : List SearchResult) : String :=
  let raw := String.intercalate "\n" (search_results.map (fun r => r.content))
  if raw.length > 3000 then raw.take 3000 else raw

/-- `extract_entities_and_connections` (extractor.py lines 18-92).
Blank input short-circuits to the fallback before any model call (the result
does not depend on `outcome`); an exception or unparseable reply lands in the
`except` branch and returns the fallback; a parsed JSON dict is read with
`.get` per key, filling type-appropriate defaults; a parsed non-dict raises
`AttributeError` inside `try` and therefore also returns the fallback. -/
def extract_entities_and_connections (topic_a topic_b : String)
    (search_results : List SearchResult) (outcome : LLMOutcome) : ExtractResult :=
  let raw_text := raw_input_text search_results
  if is_blank raw_text then fallback_extraction
  else
    match outcome with
    | .transport_error => fallback_extraction
    | .non_json_reply => fallback_extraction
    | .reply_json (.obj fields) =>
        { entities_a := (jlookup fields "entities_a").getD (.arr [])
          entities_b := (jlookup fields "entities_b").getD (.arr [])
          connections := (jlookup fields "connections").getD (.arr [])
          insight := (jlookup fields "insight").getD (.str "No connections found yet...") }
    | .reply_json _ => fallback_extraction

mutual

/-- Python `repr` of a JSON-decoded value (used by `str` on containers). -/
def pyRepr : JValue → String
  | .null => "None"
  | .bool true => "True"
  | .bool false => "False"
  | .num n => toString n
  | .str s => "'" ++ s ++ "'"
  | .arr es => "[" ++ pyReprList es ++ "]"
  | .obj fs => "\x7b" ++ pyReprFields fs ++ "\x7d"

/-- Comma-joined reprs of list elements. -/
def pyReprList : List JValue → String
  | [] => ""
  | [e] => pyRepr e
  | e :: es => pyRepr e ++ ", " ++ pyReprList es

/-- Comma-joined reprs of dict items. -/
def pyReprFields : List (String × JValue) → String
  | [] => ""
  | [(k, v)] => "'" ++ k ++ "': " ++ pyRepr v
  | (k, v) :: fs => "'" ++ k ++ "': " ++ pyRepr v ++ ", " ++ pyReprFields fs

end

/-- Python `str(q)` for a JSON-decoded `q` (extractor.py line 139). -/
def pyStr : JValue → String
  | .str s => s
  | v => pyRepr v

/-- The deterministic template queries (extractor.py lines 109-113). -/
def fallback_queries (topic_a topic_b : String) : List String :=
  [topic_a ++ " secret connections",
   topic_b ++ " hidden links",
   topic_a ++ " " ++ topic_b ++ " conspiracy"]

/-- `get_deeper_search_queries` (extractor.py lines 95-143): on a parsed
JSON list with at least one element, `str` of its first 3 elements;
otherwise (exception, unparseable reply, non-list JSON, empty list) the
3 template queries. -/
def get_deeper_search_queries (topic_a topic_b previous_insight : String)
    (outcome : LLMOutcome) : List String :=
  match outcome with
  | .transport_error => fallback_queries topic_a topic_b
  | .non_json_reply => fallback_queries topic_a topic_b
  | .reply_json j =>
      match j with
      | .arr qs =>
          if 1 ≤ qs.length then (qs.take 3).map pyStr
          else fallback_queries topic_a topic_b
      | _ => fallback_queries topic_a topic_b

end Extractor

namespace Senso

/-- One result object in a Senso search response; `chunk_text` models
`r.get("chunk_text", "")`, so a missing key is the empty string (both are
falsy in the filtering below, exactly as in Python). -/
structure SensoResult where
  chunk_text : String
deriving DecidableEq

/-- The JSON body of a successful Senso search response; `answer` models
`data.get("answer", "")`, so a missing field is the empty string. -/
structure SensoData where
  answer : String
  results : List SensoResult
deriving DecidableEq

/-- The outcome of the POST to `/org/search`: any exception (network error,
non-2xx status via `raise_for_status`, JSON decode failure) or a decoded
response body. -/
inductive SensoOutcome where
  | request_failure : SensoOutcome
  | response : SensoData → SensoOutcome

/-- `query_findings` (senso.py lines 42-75). `api_key` is the value of
`_get_api_key()` (`none` when `SENSO_API_KEY` is unset or empty). -/
def query_findings (api_key : Option String) (outcome : SensoOutcome) : String :=
  match api_key with
  | none => ""
  | some _ =>
      match outcome with
      | .request_failure => ""
      | .response d =>
          if d.answer ≠ "" ∧ d.answer ≠ "No results found for your query." then
            d.answer.take 500
          else
            (String.intercalate " "
              ((d.results.map (fun r => r.chunk_text)).filter (fun t => t != ""))).take 500

end Senso

namespace Agent

open Graph Extractor

/-- Assembly of `all_results` (agent.py lines 72-79): topic-A results, then
topic-B results, then — only when the previous context is non-empty — the
"Previous Findings" pseudo-result, then the connection-search results. -/
def build_all_results (topic_a_results topic_b_results connection_results : List SearchResult)
    (previous_context : String) : List SearchResult :=
  let all₁ := topic_a_results ++ topic_b_results
  let all₂ :=
    if previous_context = "" then all₁
    else all₁ ++ [{ title := "Previous Findings", url := "", content := previous_context }]
  all₂ ++ connection_results

/-- The loop body of `dict.fromkeys` construction: keep each URL the first
time it is seen, tracking the set of already-present keys. -/
def fromkeys_aux (seen : List String) : List String → List String
  | [] => []
  | x :: xs => if x ∈ seen then fromkeys_aux seen xs else x :: fromkeys_aux (seen ++ [x]) xs

/-- `list(dict.fromkeys(round_images))` (agent.py line 128): first-occurrence
deduplication preserving first-seen order. -/
def fromkeys_list (l : List String) : List String := fromkeys_aux [] l

/-- Modelled from the spec: "the first-occurrence deduplication of that list
in first-seen order" — keep an element exactly when it has not appeared
earlier, appending in traversal order. Used only to compare against the
code's `fromkeys_list`. -/
def first_occurrence_dedup (l : List String) : List String :=
  l.foldl (fun acc x => if x ∈ acc then acc else acc ++ [x]) []

/-- `unique_images` (agent.py line 128): dedupe, then at most the first 2. -/
def unique_images (round_images : List String) : List String :=
  (fromkeys_list round_images).take 2

/-- The image loop (agent.py lines 129-138) with the vision analyses given by
`analyze`: an `image_clue` event `(image_url, clue_text)` is emitted exactly
for the URLs whose clue is truthy (non-empty). -/
def emit_image_clues (analyze : String → String) (urls : List String) :
    List (String × String) :=
  urls.filterMap (fun u => if analyze u = "" then none else some (u, analyze u))

/-- Stable insertion of a connection into a suspicion-descending list:
the new element goes before the first strictly-less-suspicious element,
i.e. after every earlier element with suspicion ≥ its own. -/
def insert_desc (c : Connection) : List Connection → List Connection
  | [] => [c]
  | d :: ds => if d.suspicion ≤ c.suspicion then c :: d :: ds else d :: insert_desc c ds

/-- `sorted(conns, key=lambda x: x.get("suspicion", 0), reverse=True)`
(agent.py lines 159, 172): a stable sort, descending by suspicion —
modelled as stable insertion sort, which has exactly that semantics. -/
def sorted_conns_desc : List Connection → List Connection
  | [] => []
  | c :: cs => insert_desc c (sorted_conns_desc cs)

/-- One entry of `complete.top_connections` (agent.py lines 166-173). -/
structure TopConnection where
  from_entity : String
  to_entity : String
  relationship : String
deriving DecidableEq

/-- `complete.top_connections` (agent.py lines 166-173): the 5 most
suspicious connections, each with its relationship sliced to 80 chars. -/
def top_connections (conns : List Connection) : List TopConnection :=
  ((sorted_conns_desc conns).take 5).map (fun c =>
    { from_entity := c.from_entity, to_entity := c.to_entity,
      relationship := c.relationship.take 80 })

/-- Python `conn[k]` on a JSON-decoded value: `KeyError` on a dict without
the key, `TypeError` on a non-dict. -/
def getitem (j : JValue) (k : String) : Except String JValue :=
  match j with
  | .obj fields =>
      match jlookup fields k with
      | some v => Except.ok v
      | none => Except.error ("KeyError: " ++ k)
  | _ => Except.error "TypeError: value is not a dict"

/-- `conn.get("suspicion_level", 5)` (agent.py line 110). -/
def get_suspicion_level (j : JValue) : JValue :=
  match j with
  | .obj fields => (jlookup fields "suspicion_level").getD (.num 5)
  | _ => .num 5

/-- The argument reads of one `graph.add_connection` call (agent.py lines
105-111): `conn["from"]`, `conn["to"]`, `conn["relationship"]` in that order
(each can raise `KeyError`), then `conn.get("suspicion_level", 5)`. -/
def read_connection_args (conn : JValue) :
    Except String (JValue × JValue × JValue × JValue) := do
  let f ← getitem conn "from"
  let t ← getitem conn "to"
  let r ← getitem conn "relationship"
  pure (f, t, r, get_suspicion_level conn)

/-- The `for conn in extracted["connections"]` loop (agent.py lines 105-111):
processes connection dicts left to right; the first `KeyError` propagates
(run_agent has no try/except) and aborts the rest. -/
def store_round_connections (conns : List JValue) :
    Except String (List (JValue × JValue × JValue × JValue)) :=
  conns.mapM read_connection_args

end Agent

namespace Agent

/-- Modelled from the spec (claim C4's wording): the extraction input as the
first 3000 characters of the newline-joined contents of, in order, topic-A
results, then (when the prior context is non-empty) the "Previous Findings"
pseudo-result carrying that context, then topic-B results, then
connection-search results. Defined only to be compared against the code's
`Extractor.raw_input_text ∘ Agent.build_all_results`. -/
def claimed_extraction_input
    (topic_a_results topic_b_results connection_results : List SearchResult)
    (previous_context : String) : String :=
  (String.intercalate "\n"
    ((topic_a_results.map (fun r => r.content))
      ++ (if previous_context = "" then [] else [previous_context])
      ++ (topic_b_results.map (fun r => r.content))
      ++ (connection_results.map (fun r => r.content)))).take 3000

end Agent

/-! ## Helper lemmas -/

/-- Slicing a string to `n` characters yields at most `n` characters. -/
theorem string_take_length_le (s : String) (n : Nat) : (s.take n).length ≤ n := by
  rw [String.take_eq]
  exact List.length_take_le n s.data

/-- Slicing a string to at least its own length leaves it unchanged. -/
theorem string_take_of_length_le (s : String) (n : Nat) (h : s.length ≤ n) :
    s.take n = s := by
  rw [String.take_eq]
  have hd : s.data.take n = s.data := List.take_of_length_le h
  calc (⟨s.data.take n⟩ : String) = ⟨s.data⟩ := by rw [hd]
    _ = s := rfl

/-- Filtering a mapped list where the map sends every match to a fixed
matching value `v` and fixes every non-match: the result is `v` repeated
once per original match. -/
theorem filter_map_update {α : Type} (p : α → Bool) (f : α → α) (v : α)
    (hv : p v = true) (hf : ∀ e, p e = true → f e = v)
    (hid : ∀ e, p e = false → f e = e) :
    ∀ l : List α, (l.map f).filter p = List.replicate ((l.filter p).length) v := by
  intro l
  induction l with
  | nil => rfl
  | cons e l ih =>
      by_cases h : p e = true
      · rw [List.map_cons, List.filter_cons, List.filter_cons, hf e h, hv, h]
        simp only [if_pos rfl, reduceIte, List.length_cons, List.replicate_succ]
        rw [ih]
      · have h' : p e = false := by simpa using h
        rw [List.map_cons, List.filter_cons, List.filter_cons, hid e h', h']
        simp only [Bool.false_eq_true, reduceIte]
        exact ih

/-- A list whose filter has at most one element and whose `any` holds has a
filter of exactly one element. -/
theorem filter_length_one_of_any {α : Type} (p : α → Bool) (l : List α)
    (hany : l.any p = true) (hle : (l.filter p).length ≤ 1) :
    (l.filter p).length = 1 := by
  obtain ⟨x, hx, hpx⟩ := List.any_eq_true.mp hany
  have hmem : x ∈ l.filter p := List.mem_filter.mpr ⟨hx, hpx⟩
  have : 0 < (l.filter p).length := List.length_pos.mpr (List.ne_nil_of_mem hmem)
  omega

/-! ## C1 / C2 core upsert lemmas -/

/-- Upserting an entity into a state holding at most one node of that name
leaves exactly one node of that name, carrying the new topic and round. -/
theorem DriverState_add_entity_filter (st : Graph.DriverState) (n t : String) (r : Int)
    (h : ((st.entities.filter (fun e => e.name == n)).length ≤ 1)) :
    (st.add_entity n t r).entities.filter (fun e => e.name == n)
      = [{ name := n, topic := some t, round := some r }] := by
  unfold Graph.DriverState.add_entity
  by_cases hany : st.entities.any (fun e => e.name == n) = true
  · rw [if_pos hany]
    have hrepl := filter_map_update (fun e : Graph.Entity => e.name == n)
      (fun e => if e.name == n then { e with topic := some t, round := some r } else e)
      { name := n, topic := some t, round := some r }
      (by simp)
      (by
        intro e he
        have : e.name = n := by simpa using he
        simp [he, this])
      (by intro e he; simp [he])
      st.entities
    have hone := filter_length_one_of_any _ _ hany h
    simp only at hrepl
    rw [hrepl, hone, List.replicate_one]
  · rw [if_neg hany]
    have hnone : ∀ e ∈ st.entities, ¬ (e.name == n) = true := by
      intro e he
      by_contra hc
      exact hany (List.any_eq_true.mpr ⟨e, he, by simpa using hc⟩)
    have hnil : st.entities.filter (fun e => e.name == n) = [] :=
      List.filter_eq_nil_iff.mpr hnone
    simp only [List.filter_append, hnil, List.nil_append, List.filter_cons]
    simp

/-- Merging a bare endpoint node never touches the connection list. -/
theorem DriverState_merge_entity_node_connections (st : Graph.DriverState) (a : String) :
    (st.merge_entity_node a).connections = st.connections := by
  unfold Graph.DriverState.merge_entity_node
  split <;> rfl

/-- Upserting a connection into a state holding at most one edge for the
ordered pair leaves exactly one edge for the pair, carrying the new
relationship and suspicion. -/
theorem DriverState_add_connection_filter (st : Graph.DriverState)
    (f t rel : String) (s : Int)
    (h : ((st.connections.filter
        (fun c => c.from_entity == f && c.to_entity == t)).length ≤ 1)) :
    (st.add_connection f t rel s).connections.filter
        (fun c => c.from_entity == f && c.to_entity == t)
      = [{ from_entity := f, to_entity := t, relationship := rel, suspicion := s }] := by
  unfold Graph.DriverState.add_connection
  simp only [DriverState_merge_entity_node_connections]
  by_cases hany : st.connections.any (fun c => c.from_entity == f && c.to_entity == t) = true
  · rw [if_pos hany]
    have hrepl := filter_map_update
      (fun c : Graph.Connection => c.from_entity == f && c.to_entity == t)
      (fun c => if c.from_entity == f && c.to_entity == t then
          { c with relationship := rel, suspicion := s } else c)
      { from_entity := f, to_entity := t, relationship := rel, suspicion := s }
      (by simp)
      (by
        intro c hc
        have h1 : c.from_entity = f := by
          have := (Bool.and_eq_true _ _).mp hc
          simpa using this.1
        have h2 : c.to_entity = t := by
          have := (Bool.and_eq_true _ _).mp hc
          simpa using this.2
        simp [hc, h1, h2])
      (by intro c hc; simp [hc])
      st.connections
    have hone := filter_length_one_of_any _ _ hany h
    simp only at hrepl
    rw [hrepl, hone, List.replicate_one]
  · rw [if_neg hany]
    have hnone : ∀ c ∈ st.connections,
        ¬ (c.from_entity == f && c.to_entity == t) = true := by
      intro c hc
      by_contra hcon
      exact hany (List.any_eq_true.mpr ⟨c, hc, by simpa using hcon⟩)
    have hnil : st.connections.filter (fun c => c.from_entity == f && c.to_entity == t) = [] :=
      List.filter_eq_nil_iff.mpr hnone
    simp only [List.filter_append, hnil, List.nil_append, List.filter_cons]
    simp

/-! ## Claim theorems -/

/-- C1: Entity upsert is idempotent with last-writer-wins metadata: on an
available graph store holding at most one node of a given name, upserting
that name twice (with any topics and rounds) leaves exactly one entity
record of that name, whose topic and round are the values of the most
recent upsert. -/
theorem entity_upsert_last_writer_wins
    (g : Graph.ConspiracyGraph) (st : Graph.DriverState)
    (n t₁ t₂ : String) (r₁ r₂ : Int)
    (hav : g.available = true) (hdr : g.driver = some st)
    (huniq : (st.entities.filter (fun e => e.name == n)).length ≤ 1) :
    (((g.add_entity n t₁ r₁).add_entity n t₂ r₂).get_all_entities.filter
        (fun e => e.name == n))
      = [{ name := n, topic := some t₂, round := some r₂ }] := by
  obtain ⟨av, dr⟩ := g
  simp only at hav hdr
  subst hav; subst hdr
  have h1 := DriverState_add_entity_filter st n t₁ r₁ huniq
  have h2 : (((st.add_entity n t₁ r₁).entities.filter (fun e => e.name == n)).length ≤ 1) := by
    rw [h1]; simp
  exact DriverState_add_entity_filter _ n t₂ r₂ h2

/-- Witness for C1 at a concrete input: an empty available store, the name
"X" upserted with ("t1", 1) and then ("t2", 2). -/
theorem entity_upsert_last_writer_wins_witness :
    ((((Graph.ConspiracyGraph.mk true (some ⟨[], []⟩)).add_entity "X" "t1" 1).add_entity
        "X" "t2" 2).get_all_entities.filter (fun e => e.name == "X"))
      = [{ name := "X", topic := some "t2", round := some 2 }] :=
  entity_upsert_last_writer_wins ⟨true, some ⟨[], []⟩⟩ ⟨[], []⟩ "X" "t1" "t2" 1 2
    rfl rfl (by decide)

/-- C2: Connection upsert is idempotent per ordered pair: on an available
graph store holding at most one edge for the ordered pair `(f, t)`,
upserting a connection for that pair twice leaves exactly one connection
record for the pair, whose relationship and suspicion are the values of the
most recent upsert (values overwrite, they do not accumulate). -/
theorem connection_upsert_last_writer_wins
    (g : Graph.ConspiracyGraph) (st : Graph.DriverState)
    (f t rel₁ rel₂ : String) (s₁ s₂ : Int)
    (hav : g.available = true) (hdr : g.driver = some st)
    (huniq : ((st.connections.filter
        (fun c => c.from_entity == f && c.to_entity == t)).length ≤ 1)) :
    (((g.add_connection f t rel₁ s₁).add_connection f t rel₂ s₂).get_connections.filter
        (fun c => c.from_entity == f && c.to_entity == t))
      = [{ from_entity := f, to_entity := t, relationship := rel₂, suspicion := s₂ }] := by
  obtain ⟨av, dr⟩ := g
  simp only at hav hdr
  subst hav; subst hdr
  have h1 := DriverState_add_connection_filter st f t rel₁ s₁ huniq
  have h2 : (((st.add_connection f t rel₁ s₁).connections.filter
      (fun c => c.from_entity == f && c.to_entity == t)).length ≤ 1) := by
    rw [h1]; simp
  exact DriverState_add_connection_filter _ f t rel₂ s₂ h2

/-- Witness for C2 at a concrete input: an empty available store, the pair
("A", "B") upserted with ("r1", 9) and then ("r2", 3). -/
theorem connection_upsert_last_writer_wins_witness :
    ((((Graph.ConspiracyGraph.mk true (some ⟨[], []⟩)).add_connection "A" "B" "r1" 9).add_connection
        "A" "B" "r2" 3).get_connections.filter
        (fun c => c.from_entity == "A" && c.to_entity == "B"))
      = [{ from_entity := "A", to_entity := "B", relationship := "r2", suspicion := 3 }] :=
  connection_upsert_last_writer_wins ⟨true, some ⟨[], []⟩⟩ ⟨[], []⟩ "A" "B" "r1" "r2" 9 3
    rfl rfl (by decide)

/-- C3: When the graph store is unavailable (available flag false or no
driver), every operation returns its safe default and changes nothing:
clear/add_entity/add_connection are no-ops, get_all_entities and
get_connections return the empty list, get_entity_count returns 0, and
close leaves no driver (and is a no-op when there is no driver); in the
embedding every operation is total, so none can raise. -/
theorem graph_unavailable_all_ops_default (g : Graph.ConspiracyGraph)
    (h : g.available = false ∨ g.driver = none) :
    g.clear = g
    ∧ (∀ n t r, g.add_entity n t r = g)
    ∧ (∀ a b rel s, g.add_connection a b rel s = g)
    ∧ g.get_all_entities = []
    ∧ g.get_connections = []
    ∧ g.get_entity_count = 0
    ∧ g.close.driver = none
    ∧ (g.driver = none → g.close = g) := by
  obtain ⟨av, dr⟩ := g
  rcases h with h | h
  · simp only at h
    subst h
    cases dr with
    | none =>
        exact ⟨rfl, fun _ _ _ => rfl, fun _ _ _ _ => rfl, rfl, rfl, rfl, rfl, fun _ => rfl⟩
    | some st =>
        refine ⟨rfl, fun _ _ _ => rfl, fun _ _ _ _ => rfl, rfl, rfl, rfl, rfl, ?_⟩
        intro hdr
        simp at hdr
  · simp only at h
    subst h
    cases av <;>
      exact ⟨rfl, fun _ _ _ => rfl, fun _ _ _ _ => rfl, rfl, rfl, rfl, rfl, fun _ => rfl⟩

/-- Witness for C3 at a concrete input: the store produced by a failed
construction (`available = false`, no driver), with each operation applied
at concrete arguments. -/
theorem graph_unavailable_all_ops_default_witness :
    (Graph.ConspiracyGraph.mk false none).clear = Graph.ConspiracyGraph.mk false none
    ∧ (Graph.ConspiracyGraph.mk false none).add_entity "X" "t" 1
        = Graph.ConspiracyGraph.mk false none
    ∧ (Graph.ConspiracyGraph.mk false none).add_connection "A" "B" "r" 5
        = Graph.ConspiracyGraph.mk false none
    ∧ (Graph.ConspiracyGraph.mk false none).get_all_entities = []
    ∧ (Graph.ConspiracyGraph.mk false none).get_connections = []
    ∧ (Graph.ConspiracyGraph.mk false none).get_entity_count = 0
    ∧ (Graph.ConspiracyGraph.mk false none).close = Graph.ConspiracyGraph.mk false none := by
  obtain ⟨h1, h2, h3, h4, h5, h6, _h7, h8⟩ :=
    graph_unavailable_all_ops_default ⟨false, none⟩ (Or.inl rfl)
  exact ⟨h1, h2 "X" "t" 1, h3 "A" "B" "r" 5, h4, h5, h6, h8 rfl⟩

/-- The extractor's conditional 3000-character cap equals an unconditional
slice to 3000 characters. -/
theorem cap3000_eq_take (s : String) :
    (if s.length > 3000 then s.take 3000 else s) = s.take 3000 := by
  split
  · rfl
  · exact (string_take_of_length_le s 3000 (by omega)).symm

/-- C4 counterexample: with one topic-A result "A", one topic-B result "B",
no connection results and prior context "P", the code feeds "A\nB\nP" to the
model (Previous Findings is appended after the topic-B results,
agent.py lines 72-79), not the claimed "A\nP\nB". -/
theorem extraction_input_order_counterexample :
    Extractor.raw_input_text
        (Agent.build_all_results [{ title := "", url := "", content := "A" }]
          [{ title := "", url := "", content := "B" }] [] "P")
      ≠ Agent.claimed_extraction_input [{ title := "", url := "", content := "A" }]
          [{ title := "", url := "", content := "B" }] [] "P" := by
  have h1 : Extractor.raw_input_text
      (Agent.build_all_results [{ title := "", url := "", content := "A" }]
        [{ title := "", url := "", content := "B" }] [] "P") = "A\nB\nP" := rfl
  have h2 : Agent.claimed_extraction_input [{ title := "", url := "", content := "A" }]
      [{ title := "", url := "", content := "B" }] [] "P" = "A\nP\nB" := by
    have ht : ("A\nP\nB" : String).take 3000 = "A\nP\nB" :=
      string_take_of_length_le _ _ (by decide)
    calc Agent.claimed_extraction_input [{ title := "", url := "", content := "A" }]
          [{ title := "", url := "", content := "B" }] [] "P"
        = ("A\nP\nB" : String).take 3000 := rfl
      _ = "A\nP\nB" := ht
  rw [h1, h2]
  decide

/-- C4 (amended): for every round, the text fed to the language model for
extraction is exactly the first 3000 characters of the newline-joined
contents of, in order: topic-A search results, then topic-B search results,
then (if the prior context is non-empty) the "Previous Findings"
pseudo-result carrying that context, then connection-search results. -/
theorem extraction_input_first_3000_of_assembly
    (topic_a_results topic_b_results connection_results : List SearchResult)
    (previous_context : String) :
    Extractor.raw_input_text
        (Agent.build_all_results topic_a_results topic_b_results connection_results
          previous_context)
      = (String.intercalate "\n"
          (((topic_a_results ++ topic_b_results).map (fun r => r.content))
            ++ (if previous_context = "" then [] else [previous_context])
            ++ (connection_results.map (fun r => r.content)))).take 3000 := by
  have hb : Agent.build_all_results topic_a_results topic_b_results connection_results
        previous_context
      = (topic_a_results ++ topic_b_results)
        ++ (if previous_context = "" then []
            else [{ title := "Previous Findings", url := "", content := previous_context }])
        ++ connection_results := by
    unfold Agent.build_all_results
    by_cases h : previous_context = "" <;> simp [h]
  simp only [Extractor.raw_input_text, hb, List.map_append, cap3000_eq_take]
  by_cases h : previous_context = "" <;> simp [h]

/-- C5: Extraction never raises (it is a total function) and always yields a
well-formed four-field result: blank (empty or whitespace-only) input returns
the fallback whatever the model call would have produced — so the model is
never consulted; a transport failure or an unparseable reply returns the
fallback; and a parsed JSON object missing any of the four keys has that key
filled with its type-appropriate default. -/
theorem extraction_never_fails_well_formed :
    (∀ ta tb rs outcome, Extractor.is_blank (Extractor.raw_input_text rs) = true →
        Extractor.extract_entities_and_connections ta tb rs outcome
          = Extractor.fallback_extraction)
    ∧ (∀ ta tb rs,
        Extractor.extract_entities_and_connections ta tb rs .transport_error
            = Extractor.fallback_extraction
        ∧ Extractor.extract_entities_and_connections ta tb rs .non_json_reply
            = Extractor.fallback_extraction)
    ∧ (∀ ta tb rs fields,
        (Extractor.jlookup fields "entities_a" = none →
          (Extractor.extract_entities_and_connections ta tb rs
            (.reply_json (.obj fields))).entities_a = .arr [])
        ∧ (Extractor.jlookup fields "entities_b" = none →
          (Extractor.extract_entities_and_connections ta tb rs
            (.reply_json (.obj fields))).entities_b = .arr [])
        ∧ (Extractor.jlookup fields "connections" = none →
          (Extractor.extract_entities_and_connections ta tb rs
            (.reply_json (.obj fields))).connections = .arr [])
        ∧ (Extractor.jlookup fields "insight" = none →
          (Extractor.extract_entities_and_connections ta tb rs
            (.reply_json (.obj fields))).insight = .str "No connections found yet...")) := by
  refine ⟨?_, ?_, ?_⟩
  · intro ta tb rs outcome h
    simp only [Extractor.extract_entities_and_connections, h, if_pos]
  · intro ta tb rs
    constructor <;>
      (simp only [Extractor.extract_entities_and_connections]; split <;> rfl)
  · intro ta tb rs fields
    by_cases hb : Extractor.is_blank (Extractor.raw_input_text rs) = true <;>
      refine ⟨?_, ?_, ?_, ?_⟩ <;> intro h <;>
      simp [Extractor.extract_entities_and_connections, hb, h,
        Extractor.fallback_extraction]

/-- Witness for C5 at concrete inputs: empty search results are blank input
(fallback regardless of a parsed reply); transport failure returns the
fallback; a parsed empty JSON object gets the canned insight default. -/
theorem extraction_never_fails_well_formed_witness :
    Extractor.extract_entities_and_connections "a" "b" []
        (.reply_json (.obj [("entities_a", .str "x")])) = Extractor.fallback_extraction
    ∧ Extractor.extract_entities_and_connections "a" "b"
        [{ title := "", url := "", content := "x" }] .transport_error
        = Extractor.fallback_extraction
    ∧ (Extractor.extract_entities_and_connections "a" "b"
        [{ title := "", url := "", content := "x" }]
        (.reply_json (.obj []))).insight = .str "No connections found yet..." := by
  refine ⟨?_, ?_, ?_⟩
  · exact extraction_never_fails_well_formed.1 "a" "b" []
      (.reply_json (.obj [("entities_a", .str "x")])) (by decide)
  · exact (extraction_never_fails_well_formed.2.1 "a" "b"
      [{ title := "", url := "", content := "x" }]).1
  · exact (extraction_never_fails_well_formed.2.2 "a" "b"
      [{ title := "", url := "", content := "x" }] []).2.2.2 rfl

/-- C6: `get_deeper_search_queries` always returns at most 3 strings; the
template fallback has exactly 3; and whenever the model call fails or its
output is not a non-empty JSON array, the result is exactly the 3
deterministic template queries derived from the two topics. -/
theorem deeper_queries_at_most_three_with_fallback :
    (∀ ta tb pi outcome,
        (Extractor.get_deeper_search_queries ta tb pi outcome).length ≤ 3)
    ∧ (∀ ta tb, (Extractor.fallback_queries ta tb).length = 3)
    ∧ (∀ ta tb pi,
        Extractor.get_deeper_search_queries ta tb pi .transport_error
            = Extractor.fallback_queries ta tb
        ∧ Extractor.get_deeper_search_queries ta tb pi .non_json_reply
            = Extractor.fallback_queries ta tb)
    ∧ (∀ ta tb pi j, (¬ ∃ qs, j = Extractor.JValue.arr qs ∧ qs ≠ []) →
        Extractor.get_deeper_search_queries ta tb pi (.reply_json j)
          = Extractor.fallback_queries ta tb) := by
  refine ⟨?_, ?_, ?_, ?_⟩
  · intro ta tb pi outcome
    cases outcome with
    | transport_error => simp [Extractor.get_deeper_search_queries, Extractor.fallback_queries]
    | non_json_reply => simp [Extractor.get_deeper_search_queries, Extractor.fallback_queries]
    | reply_json j =>
        cases j with
        | arr qs =>
            simp only [Extractor.get_deeper_search_queries]
            split
            · rw [List.length_map]
              exact List.length_take_le 3 qs
            · simp [Extractor.fallback_queries]
        | null => simp [Extractor.get_deeper_search_queries, Extractor.fallback_queries]
        | bool b => simp [Extractor.get_deeper_search_queries, Extractor.fallback_queries]
        | num n => simp [Extractor.get_deeper_search_queries, Extractor.fallback_queries]
        | str s => simp [Extractor.get_deeper_search_queries, Extractor.fallback_queries]
        | obj fs => simp [Extractor.get_deeper_search_queries, Extractor.fallback_queries]
  · intro ta tb
    simp [Extractor.fallback_queries]
  · intro ta tb pi
    exact ⟨rfl, rfl⟩
  · intro ta tb pi j h
    cases j with
    | arr qs =>
        by_cases hq : qs = []
        · subst hq
          rfl
        · exact absurd ⟨qs, rfl, hq⟩ h
    | null => rfl
    | bool b => rfl
    | num n => rfl
    | str s => rfl
    | obj fs => rfl

/-- Witness for C6 at a concrete input: a parsed reply that is a JSON string
(not a non-empty array) yields exactly the 3 template queries. -/
theorem deeper_queries_at_most_three_with_fallback_witness :
    Extractor.get_deeper_search_queries "moon" "bigfoot" "i" (.reply_json (.str "x"))
      = Extractor.fallback_queries "moon" "bigfoot" :=
  deeper_queries_at_most_three_with_fallback.2.2.2 "moon" "bigfoot" "i" (.str "x")
    (by rintro ⟨qs, hq, -⟩; cases hq)

/-- Stable descending insertion produces a permutation of consing. -/
theorem insert_desc_perm (c : Graph.Connection) (l : List Graph.Connection) :
    (Agent.insert_desc c l).Perm (c :: l) := by
  induction l with
  | nil => exact List.Perm.refl _
  | cons d ds ih =>
      unfold Agent.insert_desc
      split
      · exact List.Perm.refl _
      · exact (List.Perm.cons d ih).trans (List.Perm.swap c d ds)

/-- The stable descending sort is a permutation of its input. -/
theorem sorted_conns_desc_perm (l : List Graph.Connection) :
    (Agent.sorted_conns_desc l).Perm l := by
  induction l with
  | nil => exact List.Perm.refl _
  | cons c cs ih =>
      exact (insert_desc_perm c (Agent.sorted_conns_desc cs)).trans (List.Perm.cons c ih)

/-- Membership in a stable descending insertion. -/
theorem mem_insert_desc {x c : Graph.Connection} {l : List Graph.Connection}
    (h : x ∈ Agent.insert_desc c l) : x = c ∨ x ∈ l :=
  List.mem_cons.mp ((insert_desc_perm c l).mem_iff.mp h)

/-- Stable descending insertion preserves suspicion-descending sortedness. -/
theorem insert_desc_pairwise (c : Graph.Connection) (l : List Graph.Connection)
    (h : l.Pairwise (fun a b => b.suspicion ≤ a.suspicion)) :
    (Agent.insert_desc c l).Pairwise (fun a b => b.suspicion ≤ a.suspicion) := by
  induction l with
  | nil => exact List.pairwise_singleton _ c
  | cons d ds ih =>
      rw [List.pairwise_cons] at h
      unfold Agent.insert_desc
      split
      · rename_i hdc
        refine List.pairwise_cons.mpr ⟨?_, List.pairwise_cons.mpr h⟩
        intro x hx
        rcases List.mem_cons.mp hx with hx | hx
        · subst hx; exact hdc
        · exact le_trans (h.1 x hx) hdc
      · rename_i hdc
        refine List.pairwise_cons.mpr ⟨?_, ih h.2⟩
        intro x hx
        rcases mem_insert_desc hx with hx | hx
        · subst hx; omega
        · exact h.1 x hx

/-- The stable descending sort is suspicion-descending. -/
theorem sorted_conns_desc_pairwise (l : List Graph.Connection) :
    (Agent.sorted_conns_desc l).Pairwise (fun a b => b.suspicion ≤ a.suspicion) := by
  induction l with
  | nil => exact List.Pairwise.nil
  | cons c cs ih => exact insert_desc_pairwise c _ ih

/-- C7: The completion event's `top_connections` has at most 5 entries,
drawn from a suspicion-descending reordering of all connections read back
from the store (the ranked list is a permutation of the store's list and is
pairwise descending, as is its 5-element prefix), with every relationship
string truncated to at most 80 characters; in particular, given a
suspicion-9 and a suspicion-3 connection, the suspicion-9 one is listed
first. -/
theorem complete_top_connections_spec :
    (∀ conns, (Agent.top_connections conns).length ≤ 5)
    ∧ (∀ conns, (Agent.sorted_conns_desc conns).Perm conns)
    ∧ (∀ conns, ((Agent.sorted_conns_desc conns).take 5).Pairwise
        (fun a b => b.suspicion ≤ a.suspicion))
    ∧ (∀ conns c, c ∈ Agent.top_connections conns → c.relationship.length ≤ 80)
    ∧ Agent.top_connections
        [{ from_entity := "A", to_entity := "B", relationship := "r1", suspicion := 3 },
         { from_entity := "C", to_entity := "D", relationship := "r2", suspicion := 9 }]
      = [{ from_entity := "C", to_entity := "D", relationship := "r2" },
         { from_entity := "A", to_entity := "B", relationship := "r1" }] := by
  refine ⟨?_, sorted_conns_desc_perm, ?_, ?_, ?_⟩
  · intro conns
    unfold Agent.top_connections
    rw [List.length_map]
    exact List.length_take_le 5 _
  · intro conns
    exact (sorted_conns_desc_pairwise conns).sublist (List.take_sublist 5 _)
  · intro conns c hc
    unfold Agent.top_connections at hc
    obtain ⟨d, hd, hdc⟩ := List.mem_map.mp hc
    subst hdc
    simp only
    exact string_take_length_le d.relationship 80
  · have h1 : ("r1" : String).take 80 = "r1" := string_take_of_length_le _ _ (by decide)
    have h2 : ("r2" : String).take 80 = "r2" := string_take_of_length_le _ _ (by decide)
    have hs : Agent.sorted_conns_desc
        [{ from_entity := "A", to_entity := "B", relationship := "r1", suspicion := 3 },
         { from_entity := "C", to_entity := "D", relationship := "r2", suspicion := 9 }]
      = [{ from_entity := "C", to_entity := "D", relationship := "r2", suspicion := 9 },
         { from_entity := "A", to_entity := "B", relationship := "r1", suspicion := 3 }] := by
      norm_num [Agent.sorted_conns_desc, Agent.insert_desc]
    unfold Agent.top_connections
    rw [hs]
    simp [h1, h2]

/-- Witness for C7 at a concrete input: the single mapped entry of a
one-connection store has a relationship of at most 80 characters. -/
theorem complete_top_connections_spec_witness :
    ({ from_entity := "A", to_entity := "B", relationship := "r" } : Agent.TopConnection)
      ∈ Agent.top_connections
        [{ from_entity := "A", to_entity := "B", relationship := "r", suspicion := 5 }] →
    (({ from_entity := "A", to_entity := "B", relationship := "r" } :
        Agent.TopConnection).relationship.length ≤ 80) :=
  complete_top_connections_spec.2.2.2.1
    [{ from_entity := "A", to_entity := "B", relationship := "r", suspicion := 5 }]
    { from_entity := "A", to_entity := "B", relationship := "r" }

/-- Folding the keep-first-occurrence step over a list extends the
accumulator exactly by the not-yet-seen elements in first-seen order. -/
theorem foldl_dedup_eq (l : List String) :
    ∀ acc : List String,
      l.foldl (fun acc x => if x ∈ acc then acc else acc ++ [x]) acc
        = acc ++ Agent.fromkeys_aux acc l := by
  induction l with
  | nil => intro acc; simp [Agent.fromkeys_aux]
  | cons x xs ih =>
      intro acc
      have hfk : ∀ seen, Agent.fromkeys_aux seen (x :: xs)
          = if x ∈ seen then Agent.fromkeys_aux seen xs
            else x :: Agent.fromkeys_aux (seen ++ [x]) xs := fun seen => rfl
      rw [List.foldl_cons, hfk]
      by_cases h : x ∈ acc
      · simp only [h, if_pos]
        exact ih acc
      · simp only [h, if_neg, not_false_iff]
        rw [ih (acc ++ [x]), List.append_assoc, List.singleton_append]

/-- The code's `dict.fromkeys` dedup equals the spec's first-occurrence
dedup. -/
theorem fromkeys_list_eq_first_occurrence_dedup (l : List String) :
    Agent.fromkeys_list l = Agent.first_occurrence_dedup l := by
  unfold Agent.first_occurrence_dedup Agent.fromkeys_list
  rw [foldl_dedup_eq l []]
  rfl

/-- C8: The URLs passed to vision analysis are exactly the first-occurrence
deduplication of the round's accumulated image URLs in first-seen order,
truncated to the first 2 unique URLs; each search call contributes at most
3 image URLs; and an `image_clue` event is emitted exactly for URLs whose
analysis returns a non-empty clue string (the emitted clue is that
analysis result). -/
theorem image_dedup_cap_and_clue_spec :
    (∀ l, Agent.unique_images l = (Agent.first_occurrence_dedup l).take 2)
    ∧ (∀ l, (Agent.unique_images l).length ≤ 2)
    ∧ (∀ outcome, (Search.search_topic outcome).2.length ≤ 3)
    ∧ (∀ analyze urls ev, ev ∈ Agent.emit_image_clues analyze urls →
        ev.2 = analyze ev.1 ∧ ev.2 ≠ "") := by
  refine ⟨?_, ?_, ?_, ?_⟩
  · intro l
    unfold Agent.unique_images
    rw [fromkeys_list_eq_first_occurrence_dedup]
  · intro l
    unfold Agent.unique_images
    exact List.length_take_le 2 _
  · intro outcome
    cases outcome with
    | none => simp [Search.search_topic]
    | some resp =>
        simp only [Search.search_topic]
        exact List.length_take_le 3 _
  · intro analyze urls ev hev
    unfold Agent.emit_image_clues at hev
    obtain ⟨u, hu, heq⟩ := List.mem_filterMap.mp hev
    by_cases h : analyze u = ""
    · rw [if_pos h] at heq
      cases heq
    · rw [if_neg h] at heq
      cases heq
      exact ⟨rfl, h⟩

/-- Witness for C8 at a concrete input: the event emitted for the URL "u"
whose analysis returns "clue" carries that clue, which is non-empty. -/
theorem image_dedup_cap_and_clue_spec_witness :
    ("u", "clue") ∈ Agent.emit_image_clues (fun _ => "clue") ["u"]
    ∧ (("u", "clue").2 = (fun (_ : String) => "clue") ("u", "clue").1
        ∧ ("u", "clue").2 ≠ "") := by
  refine ⟨by decide, ?_⟩
  exact image_dedup_cap_and_clue_spec.2.2.2 (fun _ => "clue") ["u"] ("u", "clue") (by decide)

/-- C9: The knowledge-store query always returns at most 500 characters; it
returns the empty string when the API key is missing or the request fails;
when the service responds it returns the `answer` field sliced to 500
characters, unless that field is absent/empty (modelled by `""`) or equal to
the "No results found for your query." sentinel, in which case it returns
the space-joined non-empty chunk texts sliced to 500 characters. -/
theorem senso_query_findings_spec :
    (∀ k o, (Senso.query_findings k o).length ≤ 500)
    ∧ (∀ o, Senso.query_findings none o = "")
    ∧ (∀ k, Senso.query_findings (some k) .request_failure = "")
    ∧ (∀ k d, d.answer ≠ "" → d.answer ≠ "No results found for your query." →
        Senso.query_findings (some k) (.response d) = d.answer.take 500)
    ∧ (∀ k d, d.answer = "" ∨ d.answer = "No results found for your query." →
        Senso.query_findings (some k) (.response d)
          = (String.intercalate " "
              ((d.results.map (fun r => r.chunk_text)).filter (fun t => t != ""))).take 500) := by
  refine ⟨?_, fun _ => rfl, fun _ => rfl, ?_, ?_⟩
  · intro k o
    cases k with
    | none => simp [Senso.query_findings]
    | some key =>
        cases o with
        | request_failure => simp [Senso.query_findings]
        | response d =>
            simp only [Senso.query_findings]
            split
            · exact string_take_length_le d.answer 500
            · exact string_take_length_le _ 500
  · intro k d h1 h2
    simp only [Senso.query_findings]
    rw [if_pos ⟨h1, h2⟩]
  · intro k d h
    simp only [Senso.query_findings]
    rw [if_neg]
    rintro ⟨h1, h2⟩
    rcases h with h | h
    · exact h1 h
    · exact h2 h

/-- Witness for C9 at a concrete input: a response whose answer is "ans"
(neither empty nor the sentinel) yields the sliced answer; a response whose
answer is the sentinel yields the sliced chunk join. -/
theorem senso_query_findings_spec_witness :
    Senso.query_findings (some "key")
        (.response { answer := "ans", results := [] }) = ("ans" : String).take 500
    ∧ Senso.query_findings (some "key")
        (.response { answer := "No results found for your query.",
                     results := [{ chunk_text := "c1" }, { chunk_text := "" }] })
      = (String.intercalate " "
          (([{ chunk_text := "c1" }, { chunk_text := "" }] :
              List Senso.SensoResult).map (fun r => r.chunk_text)
            |>.filter (fun t => t != ""))).take 500 := by
  constructor
  · exact senso_query_findings_spec.2.2.2.1 "key" { answer := "ans", results := [] }
      (by decide) (by decide)
  · exact senso_query_findings_spec.2.2.2.2 "key"
      { answer := "No results found for your query.",
        results := [{ chunk_text := "c1" }, { chunk_text := "" }] } (Or.inr rfl)

/-- C10: A connection dict lacking "from", "to" or "relationship" makes the
graph-upsert step raise `KeyError` (modelled as an `Except.error` that the
orchestrator does not catch, so it aborts the remaining connections of the
run), while a missing "suspicion_level" is tolerated and replaced by the
default 5. -/
theorem missing_connection_keys_raise :
    (∀ fields, Extractor.jlookup fields "from" = none →
        Agent.read_connection_args (.obj fields) = .error "KeyError: from")
    ∧ (∀ fields f, Extractor.jlookup fields "from" = some f →
        Extractor.jlookup fields "to" = none →
        Agent.read_connection_args (.obj fields) = .error "KeyError: to")
    ∧ (∀ fields f t, Extractor.jlookup fields "from" = some f →
        Extractor.jlookup fields "to" = some t →
        Extractor.jlookup fields "relationship" = none →
        Agent.read_connection_args (.obj fields) = .error "KeyError: relationship")
    ∧ (∀ fields f t r, Extractor.jlookup fields "from" = some f →
        Extractor.jlookup fields "to" = some t →
        Extractor.jlookup fields "relationship" = some r →
        Extractor.jlookup fields "suspicion_level" = none →
        Agent.read_connection_args (.obj fields) = .ok (f, t, r, .num 5))
    ∧ (∀ pre post conn e, (∀ c ∈ pre, ∃ v, Agent.read_connection_args c = .ok v) →
        Agent.read_connection_args conn = .error e →
        Agent.store_round_connections (pre ++ conn :: post) = .error e) := by
  refine ⟨?_, ?_, ?_, ?_, ?_⟩
  · intro fields h
    simp only [Agent.read_connection_args, Agent.getitem, h]
    rfl
  · intro fields f h1 h2
    simp only [Agent.read_connection_args, Agent.getitem, h1, h2]
    rfl
  · intro fields f t h1 h2 h3
    simp only [Agent.read_connection_args, Agent.getitem, h1, h2, h3]
    rfl
  · intro fields f t r h1 h2 h3 h4
    simp only [Agent.read_connection_args, Agent.getitem, Agent.get_suspicion_level,
      h1, h2, h3, h4]
    rfl
  · intro pre post conn e hpre herr
    induction pre with
    | nil =>
        simp only [List.nil_append, Agent.store_round_connections, List.mapM_cons]
        rw [herr]
        rfl
    | cons c cs ih =>
        obtain ⟨v, hv⟩ := hpre c (List.mem_cons_self c cs)
        have hrest := ih (fun x hx => hpre x (List.mem_cons_of_mem c hx))
        simp only [List.cons_append, Agent.store_round_connections, List.mapM_cons]
        rw [hv]
        simp only [Agent.store_round_connections] at hrest
        rw [hrest]
        rfl

/-- Witness for C10 at concrete inputs: a connection dict with no keys
raises `KeyError: from` (and aborts the whole loop); a dict with the three
required keys but no suspicion level defaults it to 5. -/
theorem missing_connection_keys_raise_witness :
    Agent.read_connection_args (.obj []) = .error "KeyError: from"
    ∧ Agent.read_connection_args
        (.obj [("from", .str "A"), ("to", .str "B"), ("relationship", .str "r")])
      = .ok (.str "A", .str "B", .str "r", .num 5)
    ∧ Agent.store_round_connections
        [.obj [("from", .str "A"), ("to", .str "B"), ("relationship", .str "r")], .obj []]
      = .error "KeyError: from" := by
  refine ⟨?_, ?_, ?_⟩
  · exact missing_connection_keys_raise.1 [] rfl
  · exact missing_connection_keys_raise.2.2.2.1
      [("from", .str "A"), ("to", .str "B"), ("relationship", .str "r")]
      (.str "A") (.str "B") (.str "r") rfl rfl rfl rfl
  · exact missing_connection_keys_raise.2.2.2.2
      [.obj [("from", .str "A"), ("to", .str "B"), ("relationship", .str "r")]]
      [] (.obj []) "KeyError: from"
      (by
        intro c hc
        rcases List.mem_singleton.mp hc with h
        subst h
        exact ⟨(.str "A", .str "B", .str "r", .num 5), rfl⟩)
      (missing_connection_keys_raise.1 [] rfl)
